import Mathlib

/-!
Shallow embedding of `src/webargs/tornadoparser.py` (the Tornado adapter of
webargs): the multidict proxies, the JSON-body loader and the error handlers,
together with proofs of the specified properties.

Python values flowing through the proxies are embedded as `Val`; a raw entry of
an underlying multidict is either a scalar or a `list`/`tuple` of values
(`Raw`).  Byte decoding (tornado's `_unicode`, an external collaborator) is
abstracted as a parameter `dec : List Nat → Option String`: `none` models a
`UnicodeDecodeError`.  Exceptions are embedded as `Except` results, and the
error objects a function raises are its return value.
-/

deriving instance DecidableEq for Except

namespace Webargs

/-- A Python value as seen by the proxies: a text string, a byte string
(sequence of byte values), or any other object (dicts, ints, file objects …),
identified by a tag.  Iterating a Python `bytes` yields `int`s; those ints are
also embedded as `other` since the proxy code only ever asks whether a value
`isinstance (str, bytes)`. -/
inductive Val where
  | str (s : String)
  | bytes (b : List Nat)
  | other (tag : Nat)
  deriving DecidableEq

/-- A raw entry of the underlying mapping: either a scalar value or a
`list`/`tuple` of values (both embedded as `seq`). -/
inductive Raw where
  | scalar (v : Val)
  | seq (vs : List Val)
  deriving DecidableEq

/-- Result of a proxy lookup: the MISSING sentinel (`webargs.core.missing`), a
scalar value, or an ordered sequence of values. -/
inductive GetResult where
  | missing
  | val (v : Val)
  | list (vs : List Val)
  deriving DecidableEq

/-- The error object of `webargs.tornadoparser.HTTPError`: a
`tornado.web.HTTPError` extended with `messages` (popped from kwargs, default
`{}`) and `headers` (popped from kwargs, default `None`).  `messages` maps a
field name to its ordered list of messages, embedded as an association list. -/
structure HTTPError where
  status_code : Nat
  log_message : Option String
  reason : Option String
  messages : List (String × List String)
  headers : Option (List (String × String))
  deriving DecidableEq

/-- A raised Python exception: either a `webargs.tornadoparser.HTTPError` or a
`TypeError` (raised when iterating a non-iterable value). -/
inductive PyErr where
  | httpError (e : HTTPError)
  | typeError
  deriving DecidableEq

/-- Models Python's `repr` of a `bytes` object: one bounded token per byte.
Only the properties that each byte contributes to the text and that distinct
byte lists render differently matter to the development. -/
def reprBytes (b : List Nat) : String :=
  "b[" ++ String.intercalate ", " (b.map toString) ++ "]"

/-- Models Python's `repr` of a single value. -/
def reprVal : Val → String
  | .str s => "str(" ++ s ++ ")"
  | .bytes b => reprBytes b
  | .other n => "obj(" ++ toString n ++ ")"

/-- Models Python's `repr` of a list of values: every element is rendered in
full. -/
def reprList (vs : List Val) : String :=
  "[" ++ String.intercalate ", " (vs.map reprVal) ++ "]"

/-- Models the slice-then-repr `{value[:40]!r}` of the `except` clause of
`WebArgsTornadoMultiDictProxy.__getitem__`, applied to the variable `value` as
it stands when the `UnicodeDecodeError` escapes: slicing a list keeps its first
40 elements (each rendered in full), slicing a byte string keeps its first 40
bytes, slicing a text string its first 40 characters.  Slicing any other
scalar would itself raise; that branch is unreachable from the decode error. -/
def reprSlice40 : Raw → String
  | .seq vs => reprList (vs.take 40)
  | .scalar (.str s) => reprVal (.str ⟨s.toList.take 40⟩)
  | .scalar (.bytes b) => reprBytes (b.take 40)
  | .scalar v => reprVal v

/-- The `HTTPError(400, f"Invalid unicode in {key}: {preview}")` raised on a
decode failure: `messages` and `headers` take the `kwargs.pop` defaults and
tornado's `reason` keyword is not passed. -/
def unicodeError (key preview : String) : HTTPError :=
  { status_code := 400
    log_message := some ("Invalid unicode in " ++ key ++ ": " ++ preview)
    reason := none
    messages := []
    headers := none }

/-- Models one element of the list comprehension
`_unicode(v) if isinstance(v, (str, bytes)) else v`: tornado's `_unicode`
returns a `str` unchanged and decodes a `bytes` (raising `UnicodeDecodeError`,
embedded as `.error`, when the bytes do not decode); any other value is kept
as is. -/
def normElem (dec : List Nat → Option String) : Val → Except Unit Val
  | .str s => .ok (.str s)
  | .bytes b =>
    match dec b with
    | some s => .ok (.str s)
    | none => .error ()
  | .other n => .ok (.other n)

/-- Maps an `Except`-valued function over a list, stopping at the first
failure (the effect of an exception escaping a list comprehension). -/
def mapExcept (f : α → Except ε β) : List α → Except ε (List β)
  | [] => .ok []
  | a :: as =>
    match f a with
    | .error e => .error e
    | .ok b =>
      match mapExcept f as with
      | .error e => .error e
      | .ok bs => .ok (b :: bs)

/-- Models Python iteration over the raw value, as the list comprehension
`for v in value` performs it: a `list`/`tuple` yields its elements, a `str`
yields its one-character strings, a `bytes` yields `int`s (embedded as
`other`), and any other scalar raises a `TypeError`. -/
def pyIter : Raw → Except Unit (List Val)
  | .seq vs => .ok vs
  | .scalar (.str s) => .ok (s.toList.map fun c => .str ⟨[c]⟩)
  | .scalar (.bytes b) => .ok (b.map .other)
  | .scalar (.other _) => .error ()

/-- The `WebArgsTornadoMultiDictProxy`: a view over the raw mapping `data`
(an association list, looked up in source order) and the schema's set of
multi-valued keys (`multiple_keys`, provided by the `MultiDictProxy` base
class from the schema fields declared `multiple`). -/
structure WebArgsTornadoMultiDictProxy where
  data : List (String × Raw)
  multiple_keys : List String

/-- Embedding of `WebArgsTornadoMultiDictProxy.__getitem__`, with tornado's
byte decoder abstracted as `dec`:

* `value = self.data.get(key, missing)`; absent key → MISSING;
* `key in self.multiple_keys` → the list comprehension applying `_unicode` to
  each `str`/`bytes` element; a `UnicodeDecodeError` is caught and re-raised
  as `HTTPError(400, f"Invalid unicode in {key}: {value[:40]!r}")` where
  `value` is still the raw entry;
* otherwise `if value and isinstance(value, (list, tuple)): value = value[0]`
  (the unwrap applies only to truthy, i.e. non-empty, sequences);
* `if isinstance(value, (str, bytes)): return _unicode(value)` — a decode
  failure here is caught with `value` bound to the scalar byte string;
* any other value is returned unchanged. -/
def WebArgsTornadoMultiDictProxy.getitem (dec : List Nat → Option String)
    (p : WebArgsTornadoMultiDictProxy) (key : String) : Except PyErr GetResult :=
  match p.data.lookup key with
  | none => .ok .missing
  | some value =>
    if key ∈ p.multiple_keys then
      match pyIter value with
      | .error _ => .error .typeError
      | .ok vs =>
        match mapExcept ( normElem dec) vs with
        | .ok ws => .ok (.list ws)
        | .error _ => .error (.httpError (unicodeError key (reprSlice40 value)))
    else
      match (match value with
             | .seq (v :: _) => Raw.scalar v
             | r => r) with
      | .scalar (.str s) => .ok (.val (.str s))
      | .scalar (.bytes b) =>
        match dec b with
        | some s => .ok (.val (.str s))
        | none => .error (.httpError (unicodeError key (reprBytes (b.take 40))))
      | .scalar v => .ok (.val v)
      | .seq vs => .ok (.list vs)

/-- A cookie entry (`http.cookies.Morsel`): an object carrying its value in a
`value` attribute.  The value is embedded as a `Val` to express that the
cookie proxy performs no decoding on it. -/
structure Morsel where
  value : Val
  deriving DecidableEq

/-- The `WebArgsTornadoCookiesMultiDictProxy`: raw entries are cookie
objects. -/
structure WebArgsTornadoCookiesMultiDictProxy where
  data : List (String × Morsel)
  multiple_keys : List String

/-- Embedding of `WebArgsTornadoCookiesMultiDictProxy.__getitem__`: absent key
→ MISSING; otherwise the cookie is first unwrapped to `cookie.value`, a
multi-valued key yields the one-element list `[cookie.value]`, any other key
yields `cookie.value` itself.  No `_unicode` decoding step is applied, and no
exception can be raised. -/
def WebArgsTornadoCookiesMultiDictProxy.getitem
    (p : WebArgsTornadoCookiesMultiDictProxy) (key : String) : GetResult :=
  match p.data.lookup key with
  | none => .missing
  | some cookie =>
    if key ∈ p.multiple_keys then .list [cookie.value]
    else .val cookie.value

/-- The body of a Tornado request: either a not-yet-resolved
`tornado.concurrent.Future` (streaming request whose body is not fully
available) or a concrete byte buffer. -/
inductive Body where
  | future
  | bytes (b : List Nat)
  deriving DecidableEq

/-- The slice of a Tornado request the JSON-body loader reads:
`content_type` is the result of `req.headers.get("Content-Type")` (a
case-insensitive header lookup, `none` when the header is absent) and `body`
is `req.body`. -/
structure Request where
  content_type : Option String
  body : Body
  deriving DecidableEq

/-- Embedding of `is_json_request`:
`content_type is not None and core.is_json(content_type)`.  The predicate
`core.is_json` (does a mimetype string indicate a JSON payload?) lives in
`webargs.core` and is abstracted as the parameter `is_json`. -/
def is_json_request (is_json : String → Bool) (req : Request) : Bool :=
  match req.content_type with
  | none => false
  | some content_type => is_json content_type

/-- The `json.JSONDecodeError` raised when body bytes do not parse as JSON. -/
structure JSONDecodeError where
  body : List Nat
  deriving DecidableEq

/-- The value `webargs.core.Parser.load_json` delivers for the JSON-body
location: the MISSING sentinel or a parsed payload.  Kept distinct from
`Option` so that a parsed JSON `null` is not conflated with MISSING. -/
inductive LoadResult (α : Type) where
  | missing
  | value (a : α)
  deriving DecidableEq

/-- Modelled from the spec: `webargs.core.parse_json` (absent from `src/`)
attempts to parse body bytes as JSON and raises a JSON-decode error when "the
body bytes are present but not valid JSON".  The JSON grammar itself is out of
scope, so the parser is abstracted as `parse` (with `none` modelling a parse
failure) and the parsed payload type as `α`. -/
def parse_json (parse : List Nat → Option α) (body : List Nat) :
    Except JSONDecodeError α :=
  match parse body with
  | some a => .ok a
  | none => .error ⟨body⟩

namespace TornadoParser

/-- Embedding of `TornadoParser._raw_load_json`: returns MISSING when the
mimetype is non-JSON (even if the request body is parseable as JSON), returns
MISSING when `req.body` is a `concurrent.Future` (streaming request), and
otherwise returns `core.parse_json(req.body)` — whose decode failure escapes
as the `.error` case. -/
def raw_load_json (is_json : String → Bool) (parse : List Nat → Option α)
    (req : Request) : Except JSONDecodeError (LoadResult α) :=
  if is_json_request is_json req = false then .ok .missing
  else
    match req.body with
    | .future => .ok .missing
    | .bytes b =>
      match parse_json parse b with
      | .ok a => .ok (.value a)
      | .error e => .error e

/-- Embedding of `TornadoParser._handle_invalid_json_error`: raises (returns,
in this embedding) `HTTPError(400, log_message="Invalid JSON body.",
reason="Bad Request", messages={"json": ["Invalid JSON body."]})`.  The
Python signature swallows any further positional and keyword arguments with
`*args, **kwargs` and uses none of them; the swallowed `error_headers` is the
explicit ignored parameter here, and no `headers` kwarg is passed to
`HTTPError`, so `headers` takes its pop default `None`. -/
def handle_invalid_json_error
    (_ignored_error_headers : Option (List (String × String))) : HTTPError :=
  { status_code := 400
    log_message := some "Invalid JSON body."
    reason := some "Bad Request"
    messages := [("json", ["Invalid JSON body."])]
    headers := none }

/-- Modelled from the spec: `webargs.core.Parser.load_json` (absent from
`src/`) calls `_raw_load_json` and, when the body "bytes do not parse as
JSON", funnels the decode failure into `_handle_invalid_json_error`, which
raises; field-level resolution never happens for the location in that case
(the lookup is an error, not a value mapping). -/
def load_json (is_json : String → Bool) (parse : List Nat → Option α)
    (req : Request) (error_headers : Option (List (String × String))) :
    Except HTTPError (LoadResult α) :=
  match raw_load_json is_json parse req with
  | .ok r => .ok r
  | .error _ => .error (handle_invalid_json_error error_headers)

/-- Modelled from the spec: `webargs.core.Parser.DEFAULT_VALIDATION_STATUS`
(absent from `src/`) is the "fixed default (422)" status used when the caller
specifies no `error_status_code`. -/
def DEFAULT_VALIDATION_STATUS : Nat := 422

/-- Models `str(error.messages)`, the log-friendly flattening of the
structured messages used as the tornado log message. -/
def reprMessages (messages : List (String × List String)) : String :=
  "\x7b" ++
    String.intercalate ", "
      (messages.map fun m =>
        m.1 ++ ": [" ++ String.intercalate ", " m.2 ++ "]") ++
  "\x7d"

/-- Embedding of `TornadoParser.handle_error`:
`status_code = error_status_code or self.DEFAULT_VALIDATION_STATUS` (Python
`or` falls back on a falsy left operand, i.e. on `None` and on `0`); the
reason is `"Unprocessable Entity"` exactly for status 422 and `None` (the
framework default) otherwise; the raised `HTTPError` carries the structured
`error.messages` and the caller's `error_headers` unmodified.  The function
unconditionally raises; its return value is the error raised. -/
def handle_error (messages : List (String × List String))
    (error_status_code : Option Nat)
    (error_headers : Option (List (String × String))) : HTTPError :=
  let status_code :=
    match error_status_code with
    | none => DEFAULT_VALIDATION_STATUS
    | some n => if n = 0 then DEFAULT_VALIDATION_STATUS else n
  let reason := if status_code = 422 then some "Unprocessable Entity" else none
  { status_code := status_code
    log_message := some (reprMessages messages)
    reason := reason
    messages := messages
    headers := error_headers }

end TornadoParser

/-- A concrete byte decoder for witnesses: decodes pure-ASCII byte strings
(a subset of every common text codec) and fails on any byte ≥ 128. -/
def asciiDecode (b : List Nat) : Option String :=
  if b.all (· < 128) then some ⟨b.map Char.ofNat⟩ else none

/-- The log message of the `HTTPError` carried by a failed proxy lookup
(`none` when the lookup did not raise an `HTTPError`). -/
def errLogMsg : Except PyErr GetResult → Option String
  | .error (.httpError e) => e.log_message
  | _ => none

/-- Concrete input for the decode-error preview analysis: 41 bytes, none of
them ASCII, ending in byte 201. -/
def previewBytesA : List Nat := List.replicate 40 200 ++ [201]

/-- Same as `previewBytesA` except the 41st byte is 202: the two byte strings
agree on their first 40 bytes. -/
def previewBytesB : List Nat := List.replicate 40 200 ++ [202]

/-- A proxy whose multi-valued key `k` holds the single occurrence
`previewBytesA`. -/
def previewProxyA : WebArgsTornadoMultiDictProxy :=
  ⟨[("k", .seq [.bytes previewBytesA])], ["k"]⟩

/-- A proxy whose multi-valued key `k` holds the single occurrence
`previewBytesB`. -/
def previewProxyB : WebArgsTornadoMultiDictProxy :=
  ⟨[("k", .seq [.bytes previewBytesB])], ["k"]⟩

theorem mapExcept_ok_length {α β ε : Type _} {f : α → Except ε β} :
    ∀ {as : List α} {bs : List β}, mapExcept f as = .ok bs →
      bs.length = as.length := by
  intro as
  induction as with
  | nil =>
    intro bs h
    simp only [mapExcept] at h
    cases h
    rfl
  | cons a as ih =>
    intro bs h
    simp only [mapExcept] at h
    cases hf : f a with
    | error e => rw [hf] at h; cases h
    | ok b =>
      rw [hf] at h
      cases hm : mapExcept f as with
      | error e => rw [hm] at h; cases h
      | ok bs2 =>
        rw [hm] at h
        cases h
        simp [ih hm]

theorem mapExcept_ok_get {α β ε : Type _} {f : α → Except ε β} :
    ∀ {as : List α} {bs : List β}, mapExcept f as = .ok bs →
      ∀ i (h1 : i < as.length) (h2 : i < bs.length),
        f (as.get ⟨i, h1⟩) = .ok (bs.get ⟨i, h2⟩) := by
  intro as
  induction as with
  | nil => intro bs h i h1 h2; cases h1
  | cons a as ih =>
    intro bs h i h1 h2
    simp only [mapExcept] at h
    cases hf : f a with
    | error e => rw [hf] at h; cases h
    | ok b =>
      rw [hf] at h
      cases hm : mapExcept f as with
      | error e => rw [hm] at h; cases h
      | ok bs2 =>
        rw [hm] at h
        cases h
        cases i with
        | zero => simpa using hf
        | succ j =>
          exact ih hm j (Nat.lt_of_succ_lt_succ h1) (Nat.lt_of_succ_lt_succ h2)

/-- C1: for every request whose declared Content-Type does not indicate a JSON
payload (`is_json_request` is false, covering both an absent header and a
non-JSON mimetype), `_raw_load_json` returns the MISSING sentinel without
attempting to parse the body: the result is MISSING for every JSON parser,
in particular for parsers on which the body bytes would parse as valid
JSON. -/
theorem raw_load_json_non_json_is_missing {α : Type} (is_json : String → Bool)
    (parse : List Nat → Option α) (req : Request)
    (h : is_json_request is_json req = false) :
    TornadoParser.raw_load_json is_json parse req = .ok .missing := by
  simp [TornadoParser.raw_load_json, h]

/-- Witness for C1: a POST body that the parser would happily parse, declared
as `text/plain`, yields MISSING. -/
theorem raw_load_json_non_json_is_missing_witness :
    is_json_request (fun ct => ct == "application/json")
        ⟨some "text/plain", .bytes [123, 125]⟩ = false ∧
      TornadoParser.raw_load_json (fun ct => ct == "application/json")
        (fun _ => some 7) ⟨some "text/plain", .bytes [123, 125]⟩ =
        .ok .missing :=
  ⟨by decide,
   raw_load_json_non_json_is_missing (fun ct => ct == "application/json")
     (fun _ => some 7) ⟨some "text/plain", .bytes [123, 125]⟩ (by decide)⟩

/-- C8: for every request whose body is not yet fully available (`req.body` is
an unresolved `concurrent.Future`), `_raw_load_json` returns the MISSING
sentinel — never an error — whatever the content type and the parser. -/
theorem raw_load_json_future_body_is_missing {α : Type} (is_json : String → Bool)
    (parse : List Nat → Option α) (req : Request)
    (h : req.body = .future) :
    TornadoParser.raw_load_json is_json parse req = .ok .missing := by
  unfold TornadoParser.raw_load_json
  by_cases hj : is_json_request is_json req = false
  · simp [hj]
  · simp [hj, h]

/-- Witness for C8: a streaming request with a JSON content type yields
MISSING. -/
theorem raw_load_json_future_body_is_missing_witness :
    (⟨some "application/json", .future⟩ : Request).body = .future ∧
      TornadoParser.raw_load_json (fun _ => true) (fun _ => some 7)
        ⟨some "application/json", .future⟩ = .ok .missing :=
  ⟨rfl,
   raw_load_json_future_body_is_missing (fun _ => true) (fun _ => some 7)
     ⟨some "application/json", .future⟩ rfl⟩

/-- C5: when the content type indicates JSON but the body bytes do not parse,
the parser raises `HTTPError` 400 — distinct from the 422 schema-validation
default — with the sentinel messages mapping `{"json": ["Invalid JSON
body."]}` and the fixed log message; the JSON location produces an error, not
a value mapping, so no field-level resolution happens for it. -/
theorem load_json_invalid_body_raises_400 {α : Type} (is_json : String → Bool)
    (parse : List Nat → Option α) (req : Request)
    (error_headers : Option (List (String × String))) (b : List Nat)
    (hct : is_json_request is_json req = true)
    (hbody : req.body = .bytes b)
    (hparse : parse b = none) :
    TornadoParser.load_json is_json parse req error_headers =
        .error (TornadoParser.handle_invalid_json_error error_headers) ∧
      (TornadoParser.handle_invalid_json_error error_headers).status_code = 400 ∧
      (TornadoParser.handle_invalid_json_error error_headers).messages =
        [("json", ["Invalid JSON body."])] ∧
      (TornadoParser.handle_invalid_json_error error_headers).log_message =
        some "Invalid JSON body." ∧
      (TornadoParser.handle_invalid_json_error error_headers).status_code ≠
        TornadoParser.DEFAULT_VALIDATION_STATUS := by
  refine ⟨?_, rfl, rfl, rfl,
    by simp [TornadoParser.handle_invalid_json_error,
      TornadoParser.DEFAULT_VALIDATION_STATUS]⟩
  simp [TornadoParser.load_json, TornadoParser.raw_load_json, hct, hbody,
    parse_json, hparse]

/-- Witness for C5: a declared-JSON request whose two body bytes are rejected
by the parser raises the invalid-JSON `HTTPError`. -/
theorem load_json_invalid_body_raises_400_witness :
    is_json_request (fun _ => true) ⟨some "application/json", .bytes [1, 2]⟩ = true ∧
      TornadoParser.load_json (fun _ => true) (fun _ => (none : Option Nat))
        ⟨some "application/json", .bytes [1, 2]⟩ none =
        .error (TornadoParser.handle_invalid_json_error none) :=
  ⟨rfl,
   (load_json_invalid_body_raises_400 (fun _ => true) (fun _ => (none : Option Nat))
     ⟨some "application/json", .bytes [1, 2]⟩ none [1, 2] rfl rfl rfl).1⟩

/-- C2: for a key declared multi-valued whose raw entry holds the occurrence
list `vs`, and a decoder that succeeds on every `bytes` occurrence, lookup
returns an ordered sequence of the same length in which position `i` holds
exactly the independent normalization (`_unicode` on `str`/`bytes`, identity
otherwise) of occurrence `i`: source order and cardinality are preserved. -/
theorem getitem_multiple_key_decodes_each_occurrence
    (dec : List Nat → Option String) (p : WebArgsTornadoMultiDictProxy)
    (key : String) (vs ws : List Val)
    (hdata : p.data.lookup key = some (.seq vs))
    (hmulti : key ∈ p.multiple_keys)
    (hdec : mapExcept ( normElem dec) vs = .ok ws) :
    p.getitem dec key = .ok (.list ws) ∧ ws.length = vs.length ∧
      ∀ i (h1 : i < vs.length) (h2 : i < ws.length),
        normElem dec (vs.get ⟨i, h1⟩) = .ok (ws.get ⟨i, h2⟩) := by
  refine ⟨?_, mapExcept_ok_length hdec, fun i h1 h2 => mapExcept_ok_get hdec i h1 h2⟩
  simp [WebArgsTornadoMultiDictProxy.getitem, hdata, hmulti, pyIter, hdec]

/-- Witness for C2: the form body `name=steve&name=Loria` (first occurrence
raw bytes, second already text) under a multi-valued `name` yields the
two-element decoded list in source order. -/
theorem getitem_multiple_key_decodes_each_occurrence_witness :
    (⟨[("name", .seq [.bytes [115, 116, 101, 118, 101], .str "Loria"])],
        ["name"]⟩ : WebArgsTornadoMultiDictProxy).getitem asciiDecode "name" =
        .ok (.list [.str "steve", .str "Loria"]) ∧
      ([Val.str "steve", Val.str "Loria"] : List Val).length =
        ([Val.bytes [115, 116, 101, 118, 101], Val.str "Loria"] : List Val).length :=
  ⟨(getitem_multiple_key_decodes_each_occurrence asciiDecode
      ⟨[("name", .seq [.bytes [115, 116, 101, 118, 101], .str "Loria"])], ["name"]⟩
      "name" [.bytes [115, 116, 101, 118, 101], .str "Loria"]
      [.str "steve", .str "Loria"] (by decide) (by decide) (by decide)).1,
   rfl⟩

/-- C3: for a key not declared multi-valued, an absent key yields the MISSING
sentinel, and a raw entry that is a sequence of occurrences yields only its
first occurrence, normalized (`_unicode`-decoded when it is a `str`/`bytes`
value) — the remaining occurrences are ignored whatever they are. -/
theorem getitem_single_key_takes_first_occurrence
    (dec : List Nat → Option String) (p : WebArgsTornadoMultiDictProxy)
    (key : String) (hmulti : key ∉ p.multiple_keys) :
    (p.data.lookup key = none → p.getitem dec key = .ok .missing) ∧
    ∀ v rest w, p.data.lookup key = some (.seq (v :: rest)) →
      normElem dec v = .ok w → p.getitem dec key = .ok (.val w) := by
  constructor
  · intro h
    simp [WebArgsTornadoMultiDictProxy.getitem, h]
  · intro v rest w hdata hnorm
    simp only [WebArgsTornadoMultiDictProxy.getitem, hdata]
    rw [if_neg hmulti]
    cases v with
    | str s =>
      simp only [normElem] at hnorm
      cases hnorm
      rfl
    | bytes b =>
      simp only [normElem] at hnorm
      cases hd : dec b with
      | none => rw [hd] at hnorm; cases hnorm
      | some s =>
        rw [hd] at hnorm
        cases hnorm
        simp [hd]
    | other n =>
      simp only [normElem] at hnorm
      cases hnorm
      rfl

/-- Witness for C3: `name` supplied twice (`steve` then `Loria`) for a
non-multi-valued key yields only the decoded first occurrence; the absent key
`age` yields MISSING. -/
theorem getitem_single_key_takes_first_occurrence_witness :
    (⟨[("name", .seq [.bytes [115, 116, 101, 118, 101], .str "Loria"])],
        []⟩ : WebArgsTornadoMultiDictProxy).getitem asciiDecode "name" =
        .ok (.val (.str "steve")) ∧
      (⟨[("name", .seq [.bytes [115, 116, 101, 118, 101], .str "Loria"])],
        []⟩ : WebArgsTornadoMultiDictProxy).getitem asciiDecode "age" =
        .ok .missing :=
  ⟨(getitem_single_key_takes_first_occurrence asciiDecode
      ⟨[("name", .seq [.bytes [115, 116, 101, 118, 101], .str "Loria"])], []⟩
      "name" (by decide)).2 (.bytes [115, 116, 101, 118, 101]) [.str "Loria"]
      (.str "steve") (by decide) (by decide),
   (getitem_single_key_takes_first_occurrence asciiDecode
      ⟨[("name", .seq [.bytes [115, 116, 101, 118, 101], .str "Loria"])], []⟩
      "age" (by decide)).1 (by decide)⟩

/-- C9: for a key not declared multi-valued whose raw entry is an empty
(falsy) sequence, lookup returns that empty sequence itself — the
first-element unwrap applies only to truthy sequences — and the empty
sequence is neither the MISSING sentinel nor a scalar result. -/
theorem getitem_single_key_empty_seq_passthrough
    (dec : List Nat → Option String) (p : WebArgsTornadoMultiDictProxy)
    (key : String) (hmulti : key ∉ p.multiple_keys)
    (hdata : p.data.lookup key = some (.seq [])) :
    p.getitem dec key = .ok (.list []) ∧
      (GetResult.list [] ≠ GetResult.missing) ∧
      ∀ v : Val, GetResult.list [] ≠ GetResult.val v := by
  refine ⟨?_, by decide, fun v h => by cases h⟩
  simp only [WebArgsTornadoMultiDictProxy.getitem, hdata]
  rw [if_neg hmulti]

/-- Witness for C9: an empty-list entry under key `k` is returned as the empty
sequence, not MISSING. -/
theorem getitem_single_key_empty_seq_passthrough_witness :
    (⟨[("k", .seq [])], []⟩ : WebArgsTornadoMultiDictProxy).getitem
        asciiDecode "k" = .ok (.list []) :=
  (getitem_single_key_empty_seq_passthrough asciiDecode ⟨[("k", .seq [])], []⟩
    "k" (by decide) (by decide)).1

/-- C4: `handle_error` always raises (its total return value is the raised
error); the status is the caller-specified `error_status_code` when one is
given (any nonzero status — Python `or` treats `0` like `None`), else the
fixed default 422; the reason is `"Unprocessable Entity"` exactly when the
chosen status is 422 and the framework default (`None`) otherwise; and the
raised error carries the original structured messages and the caller's extra
headers unmodified. -/
theorem handle_error_status_reason_payload
    (messages : List (String × List String))
    (error_headers : Option (List (String × String))) :
    (∀ n, n ≠ 0 →
      (TornadoParser.handle_error messages (some n) error_headers).status_code = n) ∧
    (TornadoParser.handle_error messages none error_headers).status_code =
      TornadoParser.DEFAULT_VALIDATION_STATUS ∧
    (∀ esc, (TornadoParser.handle_error messages esc error_headers).reason =
        some "Unprocessable Entity" ↔
      (TornadoParser.handle_error messages esc error_headers).status_code = 422) ∧
    (∀ esc, (TornadoParser.handle_error messages esc error_headers).status_code ≠ 422 →
      (TornadoParser.handle_error messages esc error_headers).reason = none) ∧
    (∀ esc, (TornadoParser.handle_error messages esc error_headers).messages =
        messages ∧
      (TornadoParser.handle_error messages esc error_headers).headers =
        error_headers) := by
  refine ⟨fun n hn => ?_, rfl, fun esc => ?_, fun esc hne => ?_, fun esc => ⟨rfl, rfl⟩⟩
  · simp [TornadoParser.handle_error, hn]
  · by_cases h422 :
      (TornadoParser.handle_error messages esc error_headers).status_code = 422
    · simp only [TornadoParser.handle_error] at h422 ⊢
      simp [h422]
    · simp only [TornadoParser.handle_error] at h422 ⊢
      simp [h422]
  · simp only [TornadoParser.handle_error] at hne ⊢
    simp [hne]

/-- Witness for C4: with messages `{"name": ["oops"]}` and one extra header,
a caller status of 400 is kept (reason framework-default), no caller status
falls back to 422 with reason `"Unprocessable Entity"`, and messages and
headers ride through. -/
theorem handle_error_status_reason_payload_witness :
    (TornadoParser.handle_error [("name", ["oops"])] (some 400)
        (some [("X-A", "b")])).status_code = 400 ∧
      (TornadoParser.handle_error [("name", ["oops"])] (some 400)
        (some [("X-A", "b")])).reason = none ∧
      (TornadoParser.handle_error [("name", ["oops"])] none
        (some [("X-A", "b")])).status_code = TornadoParser.DEFAULT_VALIDATION_STATUS ∧
      (TornadoParser.handle_error [("name", ["oops"])] none
        (some [("X-A", "b")])).messages = [("name", ["oops"])] ∧
      (TornadoParser.handle_error [("name", ["oops"])] none
        (some [("X-A", "b")])).headers = some [("X-A", "b")] := by
  obtain ⟨h1, h2, _h3, h4, h5⟩ :=
    handle_error_status_reason_payload [("name", ["oops"])] (some [("X-A", "b")])
  exact ⟨h1 400 (by decide), h4 (some 400) (by rw [h1 400 (by decide)]; decide),
    h2, (h5 none).1, (h5 none).2⟩

/-- C6 counterexample: under the multi-valued key `k`, two undecodable raw
byte values that agree on their first 40 bytes produce *different* error
messages — the message embeds the 41st byte (201 vs 202) — so the error of a
multi-valued key does not contain only a truncated 40-byte preview of the
offending bytes: the raw list is sliced to 40 elements, but each element is
echoed in full. -/
theorem getitem_decode_error_preview_unbounded_for_multiple_key :
    previewBytesA.take 40 = previewBytesB.take 40 ∧
      asciiDecode previewBytesA = none ∧ asciiDecode previewBytesB = none ∧
      errLogMsg (previewProxyA.getitem asciiDecode "k") ≠
        errLogMsg (previewProxyB.getitem asciiDecode "k") := by
  set_option maxRecDepth 4000 in
  refine ⟨by decide, by decide, by decide, by decide⟩

/-- C6 amended: for a key *not* declared multi-valued, a decode failure
raises `HTTPError` 400 whose message names the offending key and previews
only the first 40 bytes of the offending byte string — both when the raw
entry is the scalar byte string itself and when it is a sequence whose first
occurrence is the byte string. -/
theorem getitem_decode_error_bounded_for_single_key
    (dec : List Nat → Option String) (p : WebArgsTornadoMultiDictProxy)
    (key : String) (b : List Nat)
    (hmulti : key ∉ p.multiple_keys) (hdec : dec b = none) :
    (p.data.lookup key = some (.scalar (.bytes b)) →
      p.getitem dec key =
        .error (.httpError (unicodeError key (reprBytes (b.take 40))))) ∧
    ∀ rest, p.data.lookup key = some (.seq (.bytes b :: rest)) →
      p.getitem dec key =
        .error (.httpError (unicodeError key (reprBytes (b.take 40)))) := by
  constructor
  · intro hdata
    simp only [WebArgsTornadoMultiDictProxy.getitem, hdata]
    rw [if_neg hmulti]
    simp [hdec]
  · intro rest hdata
    simp only [WebArgsTornadoMultiDictProxy.getitem, hdata]
    rw [if_neg hmulti]
    simp [hdec]

/-- Witness for C6 amended: the scalar entry `previewBytesA` under the
non-multi-valued key `k` raises with a message previewing exactly its first
40 bytes. -/
theorem getitem_decode_error_bounded_for_single_key_witness :
    (⟨[("k", .scalar (.bytes previewBytesA))],
        []⟩ : WebArgsTornadoMultiDictProxy).getitem asciiDecode "k" =
      .error (.httpError (unicodeError "k" (reprBytes (previewBytesA.take 40)))) :=
  (getitem_decode_error_bounded_for_single_key asciiDecode
    ⟨[("k", .scalar (.bytes previewBytesA))], []⟩ "k" previewBytesA
    (by decide) (by decide)).1 (by decide)

/-- C7: the cookie proxy first unwraps the raw cookie object to its `value`
attribute before the multi-vs-scalar branching, applies no text decoding (the
value comes back exactly as stored, never an error), yields MISSING for an
absent key, and yields exactly the cookie's value for a present
non-multi-valued key (the one-element list of it for a multi-valued key). -/
theorem cookies_getitem_unwraps_value
    (p : WebArgsTornadoCookiesMultiDictProxy) (key : String) :
    (p.data.lookup key = none → p.getitem key = .missing) ∧
    ∀ cookie : Morsel, p.data.lookup key = some cookie →
      (key ∉ p.multiple_keys → p.getitem key = .val cookie.value) ∧
      (key ∈ p.multiple_keys → p.getitem key = .list [cookie.value]) := by
  constructor
  · intro h
    simp [WebArgsTornadoCookiesMultiDictProxy.getitem, h]
  · intro cookie hdata
    constructor
    · intro hmulti
      simp only [WebArgsTornadoCookiesMultiDictProxy.getitem, hdata]
      rw [if_neg hmulti]
    · intro hmulti
      simp only [WebArgsTornadoCookiesMultiDictProxy.getitem, hdata]
      rw [if_pos hmulti]

/-- Witness for C7: the cookie `name=Steve` is returned as the text value
`Steve` with no decoding step, and the absent cookie `age` yields MISSING. -/
theorem cookies_getitem_unwraps_value_witness :
    (⟨[("name", ⟨.str "Steve"⟩)],
        []⟩ : WebArgsTornadoCookiesMultiDictProxy).getitem "name" =
        .val (.str "Steve") ∧
      (⟨[("name", ⟨.str "Steve"⟩)],
        []⟩ : WebArgsTornadoCookiesMultiDictProxy).getitem "age" = .missing :=
  ⟨((cookies_getitem_unwraps_value ⟨[("name", ⟨.str "Steve"⟩)], []⟩ "name").2
      ⟨.str "Steve"⟩ (by decide)).1 (by decide),
   (cookies_getitem_unwraps_value ⟨[("name", ⟨.str "Steve"⟩)], []⟩ "age").1
     (by decide)⟩

/-- C10: the invalid-JSON error never carries caller-supplied extra headers —
whatever `error_headers` the caller passed along, the raised error's
`headers` attribute is `None`, its reason is always `"Bad Request"`, and the
error is the same object regardless of `error_headers` — unlike
`handle_error`, which forwards `error_headers` into the raised error. -/
theorem invalid_json_error_ignores_error_headers
    (error_headers : Option (List (String × String)))
    (messages : List (String × List String)) (esc : Option Nat) :
    (TornadoParser.handle_invalid_json_error error_headers).headers = none ∧
      (TornadoParser.handle_invalid_json_error error_headers).reason =
        some "Bad Request" ∧
      TornadoParser.handle_invalid_json_error error_headers =
        TornadoParser.handle_invalid_json_error none ∧
      (TornadoParser.handle_error messages esc error_headers).headers =
        error_headers :=
  ⟨rfl, rfl, rfl, rfl⟩

/-- Witness for C10: with one concrete extra header passed along, the
invalid-JSON error still carries no headers while `handle_error` forwards the
same header. -/
theorem invalid_json_error_ignores_error_headers_witness :
    (TornadoParser.handle_invalid_json_error (some [("X-A", "b")])).headers =
        none ∧
      (TornadoParser.handle_error [("name", ["oops"])] none
        (some [("X-A", "b")])).headers = some [("X-A", "b")] :=
  ⟨(invalid_json_error_ignores_error_headers (some [("X-A", "b")])
      [("name", ["oops"])] none).1,
   (invalid_json_error_ignores_error_headers (some [("X-A", "b")])
      [("name", ["oops"])] none).2.2.2⟩

end Webargs
